import Mathlib

/-!
Shallow embedding of the Telnet option-negotiation core of
`vscode-telnet-pty` (`src/index.ts`, class `TelnetPseudoterminal`).

The class keeps three pieces of mutable state: `_dimensions` (an optional
terminal size), `_socket` (present once `open` has run) and `_serverNawsOk`
(whether the remote accepted NAWS).  We model that state as `EngineState`
and each handler method as a function from state to a `StepResult`: the new
state, the list of messages written to the telnet socket during the call,
and an optional synchronously raised error.  A raised error does not retract
messages already written before the raising point, matching the imperative
control flow of the source.

Socket writes go through the `socket` getter, which throws
`Error('Terminal not ready')` when `_socket` is unset; `socketWrite` models
that getter plus the write.  `Buffer.writeInt16BE` throws a `RangeError`
for values outside the signed 16-bit range and otherwise stores the two's
complement big-endian bytes; `writeInt16BE` models it over `Int`.
-/

set_option autoImplicit false

namespace TelnetPty

/-- RFC 857 option code, `const ECHO = 1` in the source. -/
def ECHO : Nat := 1

/-- RFC 858 option code, `const SUPPRESS_GO_AHEAD = 3`. -/
def SUPPRESS_GO_AHEAD : Nat := 3

/-- RFC 1091 option code, `const TERMINAL_TYPE = 24`. -/
def TERMINAL_TYPE : Nat := 24

/-- RFC 1073 option code, `const NAWS = 31`. -/
def NAWS : Nat := 31

/-- RFC 1572 option code, `const NEW_ENVIRON = 39`. -/
def NEW_ENVIRON : Nat := 39

/-- Subnegotiation sub-code, `const IS = 0`. -/
def IS : Nat := 0

/-- Subnegotiation sub-code, `const SEND = 1`. -/
def SEND : Nat := 1

/-- `vscode.TerminalDimensions`: columns and rows, JavaScript numbers used
as integers by the source. -/
structure TerminalDimensions where
  columns : Int
  rows : Int
deriving Repr, DecidableEq

/-- The mutable fields of `TelnetPseudoterminal`: `_dimensions`,
presence of `_socket`, and `_serverNawsOk`. -/
structure EngineState where
  dimensions : Option TerminalDimensions
  socketConnected : Bool
  serverNawsOk : Bool
deriving Repr, DecidableEq

/-- Errors the source can raise synchronously: `new Error(message)` from the
`socket` getter, and the `RangeError` thrown by `Buffer.writeInt16BE`. -/
inductive JsError where
  | error (message : String)
  | rangeError
deriving Repr, DecidableEq

/-- A message written to the `TelnetSocket`: `writeWill`, `writeWont`,
`writeDo`, `writeDont`, `writeSub option payload`, or a plain `write` of
text data. -/
inductive Msg where
  | will (option : Nat)
  | wont (option : Nat)
  | doCmd (option : Nat)
  | dont (option : Nat)
  | sub (option : Nat) (payload : List Nat)
  | data (text : String)
deriving Repr, DecidableEq

/-- Result of running one method: the state afterwards, the messages written
to the socket during the call (in order), and the error raised, if any. -/
structure StepResult where
  state : EngineState
  out : List Msg
  err : Option JsError
deriving Repr, DecidableEq

/-- Message of `new Error('Terminal not ready')` in the `socket` getter. -/
def notReadyText : String := "Terminal not ready"

/-- The error thrown by the `socket` getter when `_socket` is unset. -/
def terminalNotReady : JsError := JsError.error notReadyText

/-- `this.socket.write...(m)`: the getter throws `terminalNotReady` when no
socket is present, otherwise the message is written. -/
def socketWrite (st : EngineState) (m : Msg) : List Msg × Option JsError :=
  if st.socketConnected then ([m], none) else ([], some terminalNotReady)

/-- The two's complement big-endian bytes of an in-range signed 16-bit
value, as stored by `buffer.writeInt16BE`. -/
def int16pair (v : Int) : List Nat :=
  [(v % 65536).toNat / 256, (v % 65536).toNat % 256]

/-- `buffer.writeInt16BE(v)`: throws a `RangeError` outside
`[-32768, 32767]`, otherwise yields the two big-endian bytes. -/
def writeInt16BE (v : Int) : Except JsError (List Nat) :=
  if v < -32768 ∨ 32767 < v then Except.error JsError.rangeError
  else Except.ok (int16pair v)

/-- `sendWindowSize()`: returns immediately unless `serverNawsOk` and a size
are set; otherwise encodes columns then rows as big-endian 16-bit fields and
writes them as a NAWS subnegotiation.  The state is not changed. -/
def sendWindowSize (st : EngineState) : List Msg × Option JsError :=
  if !st.serverNawsOk then ([], none)
  else
    match st.dimensions with
    | none => ([], none)
    | some d =>
      match writeInt16BE d.columns with
      | Except.error e => ([], some e)
      | Except.ok cb =>
        match writeInt16BE d.rows with
        | Except.error e => ([], some e)
        | Except.ok rb => socketWrite st (Msg.sub NAWS (cb ++ rb))

/-- The private `serverNawsOk` setter: returns without any action when the
value is unchanged; otherwise stores it, then writes `WILL NAWS` and sends
the window size (on `true`) or writes `WONT NAWS` (on `false`). -/
def setServerNawsOk (st : EngineState) (value : Bool) : StepResult :=
  if value = st.serverNawsOk then ⟨st, [], none⟩
  else
    let st2 := { st with serverNawsOk := value }
    if value then
      match socketWrite st2 (Msg.will NAWS) with
      | (out1, some e) => ⟨st2, out1, some e⟩
      | (out1, none) =>
        match sendWindowSize st2 with
        | (out2, e2) => ⟨st2, out1 ++ out2, e2⟩
    else
      match socketWrite st2 (Msg.wont NAWS) with
      | (out1, e) => ⟨st2, out1, e⟩

/-- The protected `dimensions` setter: stores the value, then calls
`sendWindowSize()`. -/
def setDimensionsValue (st : EngineState) (value : Option TerminalDimensions) :
    StepResult :=
  let st2 := { st with dimensions := value }
  match sendWindowSize st2 with
  | (out, e) => ⟨st2, out, e⟩

/-- `setDimensions(dimensions)`: assigns through the `dimensions` setter. -/
def setDimensions (st : EngineState) (d : TerminalDimensions) : StepResult :=
  setDimensionsValue st (some d)

/-- `handleDo(option)`: NAWS goes through the `serverNawsOk` setter with
`true`; TERMINAL-TYPE and NEW-ENVIRON are confirmed with `WILL`; every other
option is refused with `WONT`. -/
def handleDo (st : EngineState) (option : Nat) : StepResult :=
  if option = NAWS then setServerNawsOk st true
  else if option = TERMINAL_TYPE ∨ option = NEW_ENVIRON then
    match socketWrite st (Msg.will option) with
    | (out, e) => ⟨st, out, e⟩
  else
    match socketWrite st (Msg.wont option) with
    | (out, e) => ⟨st, out, e⟩

/-- `handleDont(option)`: NAWS goes through the `serverNawsOk` setter with
`false`; every other option is acknowledged with `WONT`. -/
def handleDont (st : EngineState) (option : Nat) : StepResult :=
  if option = NAWS then setServerNawsOk st false
  else
    match socketWrite st (Msg.wont option) with
    | (out, e) => ⟨st, out, e⟩

/-- `handleWill(option)`: ECHO and SUPPRESS-GO-AHEAD are confirmed with
`DO`; every other option is refused with `DONT`. -/
def handleWill (st : EngineState) (option : Nat) : StepResult :=
  if option = ECHO ∨ option = SUPPRESS_GO_AHEAD then
    match socketWrite st (Msg.doCmd option) with
    | (out, e) => ⟨st, out, e⟩
  else
    match socketWrite st (Msg.dont option) with
    | (out, e) => ⟨st, out, e⟩

/-- `handleWont(option)`: ECHO is re-requested with `DO`; every other option
is acknowledged with `DONT`. -/
def handleWont (st : EngineState) (option : Nat) : StepResult :=
  if option = ECHO then
    match socketWrite st (Msg.doCmd option) with
    | (out, e) => ⟨st, out, e⟩
  else
    match socketWrite st (Msg.dont option) with
    | (out, e) => ⟨st, out, e⟩

/-- An argument to the variadic private `writeSub` helper: a number becomes
a single byte, a string its UTF-8 bytes (`Buffer.from`). -/
inductive SubPiece where
  | num (n : Nat)
  | str (s : String)

/-- The UTF-8 encoding of one character, as `Buffer.from` encodes it. -/
def utf8Bytes (c : Char) : List Nat :=
  let n := c.toNat
  if n < 128 then [n]
  else if n < 2048 then [192 + n / 64, 128 + n % 64]
  else if n < 65536 then
    [224 + n / 4096, 128 + (n / 64) % 64, 128 + n % 64]
  else
    [240 + n / 262144, 128 + (n / 4096) % 64, 128 + (n / 64) % 64,
     128 + n % 64]

/-- The bytes of `Buffer.from(s)`: the UTF-8 encoding of the string. -/
def stringBytes (s : String) : List Nat :=
  (s.data.map utf8Bytes).flatten

/-- `Buffer` conversion of one `writeSub` argument. -/
def pieceBytes : SubPiece → List Nat
  | SubPiece.num n => [n]
  | SubPiece.str s => stringBytes s

/-- The private `writeSub(option, ...data)`: concatenates the converted
arguments and writes them as one subnegotiation. -/
def writeSub (st : EngineState) (option : Nat) (pieces : List SubPiece) :
    List Msg × Option JsError :=
  socketWrite st (Msg.sub option (pieces.map pieceBytes).flatten)

/-- The fixed terminal type string sent by `sendTerminalType`. -/
def XTERM : String := "XTERM"

/-- `sendEnvironment()`: a NEW-ENVIRON subnegotiation holding only `IS`. -/
def sendEnvironment (st : EngineState) : List Msg × Option JsError :=
  writeSub st NEW_ENVIRON [SubPiece.num IS]

/-- `sendTerminalType()`: a TERMINAL-TYPE subnegotiation holding `IS`
followed by the string `XTERM`. -/
def sendTerminalType (st : EngineState) : List Msg × Option JsError :=
  writeSub st TERMINAL_TYPE [SubPiece.num IS, SubPiece.str XTERM]

/-- `handleSubnegotiation(option, buffer)`: TERMINAL-TYPE and NEW-ENVIRON
reply when the first payload byte is `SEND`; everything else (other options,
an empty buffer, a different first byte) falls through silently.  A JS read
`buffer[0]` of an empty buffer yields `undefined`, which is not `SEND`;
`List.head?` models that. -/
def handleSubnegotiation (st : EngineState) (option : Nat)
    (buffer : List Nat) : StepResult :=
  if option = TERMINAL_TYPE then
    if buffer.head? = some SEND then
      match sendTerminalType st with
      | (out, e) => ⟨st, out, e⟩
    else ⟨st, [], none⟩
  else if option = NEW_ENVIRON then
    if buffer.head? = some SEND then
      match sendEnvironment st with
      | (out, e) => ⟨st, out, e⟩
    else ⟨st, [], none⟩
  else ⟨st, [], none⟩

/-- The string `'\r'` compared against in `translateInput`. -/
def CR : String := "\r"

/-- The string `'\r\n'` returned by `translateInput` for a bare return. -/
def CRLF : String := "\r\n"

/-- `translateInput(data)`: a bare carriage return becomes CRLF, everything
else passes through unchanged. -/
def translateInput (data : String) : String :=
  if data = CR then CRLF else data

/-- `handleInput(data)`: writes the translated input to the socket.  The
`socket` getter runs before the optional-chaining `?.`, so with no socket
the call throws rather than silently dropping the data. -/
def handleInput (st : EngineState) (data : String) : StepResult :=
  match socketWrite st (Msg.data (translateInput data)) with
  | (out, e) => ⟨st, out, e⟩

/-- State of a freshly constructed `TelnetPseudoterminal`: no dimensions, no
socket, `_serverNawsOk = false`. -/
def initialState : EngineState := ⟨none, false, false⟩

/-- `open(initialDimensions)`: stores the dimensions, connects the socket,
and writes the initial offers `DO ECHO`, `DO SUPPRESS-GO-AHEAD`,
`WILL SUPPRESS-GO-AHEAD`, `WILL NAWS`. -/
def openTerminal (st : EngineState)
    (initialDimensions : Option TerminalDimensions) : EngineState × List Msg :=
  let st2 := { st with dimensions := initialDimensions, socketConnected := true }
  (st2, [Msg.doCmd ECHO, Msg.doCmd SUPPRESS_GO_AHEAD,
         Msg.will SUPPRESS_GO_AHEAD, Msg.will NAWS])

/-- Whether a message is a negotiation reply command
(`WILL`/`WONT`/`DO`/`DONT`), as opposed to subnegotiation or plain data. -/
def isReply : Msg → Bool
  | Msg.will _ => true
  | Msg.wont _ => true
  | Msg.doCmd _ => true
  | Msg.dont _ => true
  | Msg.sub _ _ => false
  | Msg.data _ => false

/-- Number of negotiation reply commands in an output list. -/
def replyCount (msgs : List Msg) : Nat := (msgs.filter isReply).length

/-- The option affirmed by a message, when the message is affirmative
(`WILL` or `DO`). -/
def affirmedOption : Msg → Option Nat
  | Msg.will o => some o
  | Msg.doCmd o => some o
  | _ => none

/-- Both fields of a size fit the signed 16-bit wire encoding. -/
def inInt16Range (d : TerminalDimensions) : Prop :=
  -32768 ≤ d.columns ∧ d.columns ≤ 32767 ∧ -32768 ≤ d.rows ∧ d.rows ≤ 32767

instance (d : TerminalDimensions) : Decidable (inInt16Range d) := by
  unfold inInt16Range
  infer_instance

/-- Modelled from the spec: the byte-level framing of outgoing messages is
performed by the external `telnet-stream` writer, which is not part of this
repository's sources.  The spec fixes the wire constants IAC=255, DO=253,
DONT=254, WILL=251, WONT=252, SB=250, SE=240 and requires every `0xFF` byte
inside payload data to be escaped by doubling. -/
def escapeIAC (bytes : List Nat) : List Nat :=
  (bytes.map (fun b => if b = 255 then [255, 255] else [b])).flatten

/-- Modelled from the spec: wire bytes of one outgoing message under the
framing of `escapeIAC` and the spec's command constants. -/
def wireBytes : Msg → List Nat
  | Msg.will o => [255, 251, o]
  | Msg.wont o => [255, 252, o]
  | Msg.doCmd o => [255, 253, o]
  | Msg.dont o => [255, 254, o]
  | Msg.sub o payload => [255, 250, o] ++ escapeIAC payload ++ [255, 240]
  | Msg.data s => escapeIAC (stringBytes s)

/-- Wire bytes of a whole output list, in order. -/
def wireOf (msgs : List Msg) : List Nat := (msgs.map wireBytes).flatten


/-! ### Helper lemmas -/

/-- The output of `sendWindowSize` contains no negotiation reply command. -/
theorem sendWindowSize_filter_isReply (st : EngineState) :
    (sendWindowSize st).1.filter isReply = [] := by
  unfold sendWindowSize socketWrite
  repeat' split
  all_goals rfl

/-- No message produced by `sendWindowSize` is a negotiation reply. -/
theorem sendWindowSize_not_reply (st : EngineState) :
    ∀ m ∈ (sendWindowSize st).1, isReply m = false := by
  have h := sendWindowSize_filter_isReply st
  rw [List.filter_eq_nil_iff] at h
  intro m hm
  simpa using h m hm

/-- No message produced by `sendWindowSize` is an affirmative reply. -/
theorem sendWindowSize_affirmed (st : EngineState) :
    ∀ m ∈ (sendWindowSize st).1, affirmedOption m = none := by
  unfold sendWindowSize socketWrite
  repeat' split
  all_goals simp [affirmedOption]

/-- With the socket connected, an in-range stored size, and NAWS accepted,
`sendWindowSize` writes exactly the encoded size block. -/
theorem sendWindowSize_eq (st : EngineState) (d : TerminalDimensions)
    (hc : st.socketConnected = true) (hn : st.serverNawsOk = true)
    (hd : st.dimensions = some d) (hr : inInt16Range d) :
    sendWindowSize st =
      ([Msg.sub NAWS (int16pair d.columns ++ int16pair d.rows)], none) := by
  obtain ⟨h1, h2, h3, h4⟩ := hr
  have hcol : ¬(d.columns < -32768 ∨ 32767 < d.columns) := by omega
  have hrow : ¬(d.rows < -32768 ∨ 32767 < d.rows) := by omega
  simp [sendWindowSize, hn, hd, writeInt16BE, hcol, hrow, socketWrite, hc]

/-! ### C1 -/

/-- C1 counterexample: with the socket connected and NAWS already accepted, a
repeated `DO NAWS` produces no outgoing message at all, and with NAWS already
not accepted (as in the initial state) a `DONT NAWS` produces no outgoing
message, refuting that every negotiation command receives exactly one reply. -/
theorem C1_counterexample :
    (handleDo ⟨some ⟨80, 24⟩, true, true⟩ NAWS).out = [] ∧
    (handleDont ⟨some ⟨80, 24⟩, true, false⟩ NAWS).out = [] := by
  decide

/-- C1 (amended): with the socket connected, every received negotiation
command is answered with exactly one reply command, except `DO NAWS` when
NAWS is already accepted and `DONT NAWS` when NAWS is already not accepted,
which are answered with no reply at all. -/
theorem C1_amended_reply_discipline (st : EngineState) (opt : Nat)
    (hconn : st.socketConnected = true) :
    replyCount (handleDo st opt).out =
      (if opt = NAWS ∧ st.serverNawsOk = true then 0 else 1) ∧
    replyCount (handleDont st opt).out =
      (if opt = NAWS ∧ st.serverNawsOk = false then 0 else 1) ∧
    replyCount (handleWill st opt).out = 1 ∧
    replyCount (handleWont st opt).out = 1 := by
  refine ⟨?_, ?_, ?_, ?_⟩
  · by_cases ho : opt = NAWS
    · subst ho
      by_cases hn : st.serverNawsOk = true
      · simp [handleDo, setServerNawsOk, hn, replyCount]
      · simp only [Bool.not_eq_true] at hn
        simp [handleDo, setServerNawsOk, hn, socketWrite, hconn,
          replyCount, List.filter_append, isReply]
        exact fun a ha => sendWindowSize_not_reply _ a ha
    · by_cases ht : opt = TERMINAL_TYPE ∨ opt = NEW_ENVIRON
      · simp [handleDo, ho, ht, socketWrite, hconn, replyCount, isReply]
      · simp [handleDo, ho, ht, socketWrite, hconn, replyCount, isReply]
  · by_cases ho : opt = NAWS
    · subst ho
      by_cases hn : st.serverNawsOk = true
      · simp [handleDont, setServerNawsOk, hn, socketWrite, hconn,
          replyCount, isReply]
      · simp only [Bool.not_eq_true] at hn
        simp [handleDont, setServerNawsOk, hn, replyCount]
    · simp [handleDont, ho, socketWrite, hconn, replyCount, isReply]
  · by_cases ho : opt = ECHO ∨ opt = SUPPRESS_GO_AHEAD
    · simp [handleWill, ho, socketWrite, hconn, replyCount, isReply]
    · simp [handleWill, ho, socketWrite, hconn, replyCount, isReply]
  · by_cases ho : opt = ECHO
    · simp [handleWont, ho, socketWrite, hconn, replyCount, isReply]
    · simp [handleWont, ho, socketWrite, hconn, replyCount, isReply]

/-- C1 amended witness: the reply discipline instantiated at a connected
state with NAWS not yet accepted and option `NAWS`. -/
theorem C1_amended_reply_discipline_witness :
    (⟨some ⟨80, 24⟩, true, false⟩ : EngineState).socketConnected = true ∧
    (replyCount (handleDo ⟨some ⟨80, 24⟩, true, false⟩ NAWS).out =
      (if NAWS = NAWS ∧
          (⟨some ⟨80, 24⟩, true, false⟩ : EngineState).serverNawsOk = true
        then 0 else 1) ∧
    replyCount (handleDont ⟨some ⟨80, 24⟩, true, false⟩ NAWS).out =
      (if NAWS = NAWS ∧
          (⟨some ⟨80, 24⟩, true, false⟩ : EngineState).serverNawsOk = false
        then 0 else 1) ∧
    replyCount (handleWill ⟨some ⟨80, 24⟩, true, false⟩ NAWS).out = 1 ∧
    replyCount (handleWont ⟨some ⟨80, 24⟩, true, false⟩ NAWS).out = 1) :=
  ⟨by decide, C1_amended_reply_discipline ⟨some ⟨80, 24⟩, true, false⟩ NAWS (by decide)⟩

/-! ### C2 -/

/-- C2: from a connected state in which NAWS is not yet accepted, receiving
`DO NAWS` with a stored size emits the `WILL NAWS` reply first and the NAWS
size subnegotiation after it, never before; with size 80×24 the wire bytes
are `IAC WILL NAWS` followed by `IAC SB NAWS 0x00 0x50 0x00 0x18 IAC SE`. -/
theorem C2_do_naws_reply_then_size (st : EngineState)
    (hconn : st.socketConnected = true) (hn : st.serverNawsOk = false) :
    (st.dimensions = some ⟨80, 24⟩ →
      wireOf (handleDo st NAWS).out =
        [255, 251, 31, 255, 250, 31, 0, 80, 0, 24, 255, 240]) ∧
    (∀ d, st.dimensions = some d → inInt16Range d →
      (handleDo st NAWS).out =
        [Msg.will NAWS,
         Msg.sub NAWS (int16pair d.columns ++ int16pair d.rows)]) := by
  obtain ⟨dims, conn, naws⟩ := st
  simp only at hconn hn
  subst hconn
  subst hn
  have hgen : ∀ d, dims = some d → inInt16Range d →
      (handleDo ⟨dims, true, false⟩ NAWS).out =
        [Msg.will NAWS,
         Msg.sub NAWS (int16pair d.columns ++ int16pair d.rows)] := by
    intro d hd hr
    subst hd
    have hsw := sendWindowSize_eq ⟨some d, true, true⟩ d rfl rfl rfl hr
    simp [handleDo, setServerNawsOk, socketWrite, hsw]
  refine ⟨?_, hgen⟩
  intro hd
  rw [hgen ⟨80, 24⟩ hd (by decide)]
  decide

/-- C2 witness: the scenario at the concrete state with size 80×24 stored,
socket connected, NAWS not yet accepted. -/
theorem C2_do_naws_reply_then_size_witness :
    ((⟨some ⟨80, 24⟩, true, false⟩ : EngineState).dimensions = some ⟨80, 24⟩ →
      wireOf (handleDo ⟨some ⟨80, 24⟩, true, false⟩ NAWS).out =
        [255, 251, 31, 255, 250, 31, 0, 80, 0, 24, 255, 240]) ∧
    (∀ d, (⟨some ⟨80, 24⟩, true, false⟩ : EngineState).dimensions = some d →
      inInt16Range d →
      (handleDo ⟨some ⟨80, 24⟩, true, false⟩ NAWS).out =
        [Msg.will NAWS,
         Msg.sub NAWS (int16pair d.columns ++ int16pair d.rows)]) :=
  C2_do_naws_reply_then_size ⟨some ⟨80, 24⟩, true, false⟩ (by decide) (by decide)

/-! ### C3 -/

/-- C3: with the socket connected, a `DO` for an option outside the local
allow-list (NAWS, TERMINAL-TYPE, NEW-ENVIRON) is answered with exactly one
`WONT` and leaves the state unchanged; a `WILL` for an option outside the
remote allow-list (ECHO, SUPPRESS-GO-AHEAD) is answered with exactly one
`DONT` and leaves the state unchanged; and no handler ever emits an
affirmative reply (`WILL`/`DO`) for an option outside its allow-list. -/
theorem C3_unknown_options_negative (st : EngineState) (opt : Nat)
    (hconn : st.socketConnected = true) :
    (opt ≠ NAWS → opt ≠ TERMINAL_TYPE → opt ≠ NEW_ENVIRON →
      handleDo st opt = ⟨st, [Msg.wont opt], none⟩) ∧
    (opt ≠ ECHO → opt ≠ SUPPRESS_GO_AHEAD →
      handleWill st opt = ⟨st, [Msg.dont opt], none⟩) ∧
    (∀ m ∈ (handleDo st opt).out, ∀ o, affirmedOption m = some o →
      o = NAWS ∨ o = TERMINAL_TYPE ∨ o = NEW_ENVIRON) ∧
    (∀ m ∈ (handleWill st opt).out, ∀ o, affirmedOption m = some o →
      o = ECHO ∨ o = SUPPRESS_GO_AHEAD) ∧
    (∀ m ∈ (handleDont st opt).out, affirmedOption m = none) ∧
    (∀ m ∈ (handleWont st opt).out, ∀ o, affirmedOption m = some o →
      o = ECHO) := by
  obtain ⟨dims, conn, naws⟩ := st
  simp only at hconn
  subst hconn
  refine ⟨?_, ?_, ?_, ?_, ?_, ?_⟩
  · intro h1 h2 h3
    simp [handleDo, h1, h2, h3, socketWrite]
  · intro h1 h2
    simp [handleWill, h1, h2, socketWrite]
  · by_cases h1 : opt = NAWS
    · subst h1
      cases naws
      · intro m hm o hmo
        simp [handleDo, setServerNawsOk, socketWrite] at hm
        rcases hm with rfl | hm
        · simp [affirmedOption] at hmo
          omega
        · rw [sendWindowSize_affirmed _ m hm] at hmo
          simp at hmo
      · intro m hm
        simp [handleDo, setServerNawsOk] at hm
    · by_cases h2 : opt = TERMINAL_TYPE ∨ opt = NEW_ENVIRON
      · intro m hm o hmo
        rw [handleDo, if_neg h1, if_pos h2] at hm
        simp [socketWrite] at hm
        subst hm
        simp [affirmedOption] at hmo
        rcases h2 with rfl | rfl
        · right
          left
          omega
        · right
          right
          omega
      · intro m hm o hmo
        rw [handleDo, if_neg h1, if_neg h2] at hm
        simp [socketWrite] at hm
        subst hm
        simp [affirmedOption] at hmo
  · by_cases h1 : opt = ECHO ∨ opt = SUPPRESS_GO_AHEAD
    · intro m hm o hmo
      rw [handleWill, if_pos h1] at hm
      simp [socketWrite] at hm
      subst hm
      simp [affirmedOption] at hmo
      rcases h1 with rfl | rfl
      · left
        omega
      · right
        omega
    · intro m hm o hmo
      rw [handleWill, if_neg h1] at hm
      simp [socketWrite] at hm
      subst hm
      simp [affirmedOption] at hmo
  · by_cases h1 : opt = NAWS
    · subst h1
      cases naws
      · intro m hm
        simp [handleDont, setServerNawsOk] at hm
      · intro m hm
        simp [handleDont, setServerNawsOk, socketWrite] at hm
        subst hm
        simp [affirmedOption]
    · intro m hm
      rw [handleDont, if_neg h1] at hm
      simp [socketWrite] at hm
      subst hm
      simp [affirmedOption]
  · by_cases h1 : opt = ECHO
    · subst h1
      intro m hm o hmo
      simp [handleWont, socketWrite] at hm
      subst hm
      simp [affirmedOption] at hmo
      omega
    · intro m hm o hmo
      rw [handleWont, if_neg h1] at hm
      simp [socketWrite] at hm
      subst hm
      simp [affirmedOption] at hmo

/-- C3 witness: option 5 is on no allow-list; instantiated at a concrete
connected state. -/
theorem C3_unknown_options_negative_witness :
    ((5 : Nat) ≠ NAWS → (5 : Nat) ≠ TERMINAL_TYPE → (5 : Nat) ≠ NEW_ENVIRON →
      handleDo ⟨none, true, false⟩ 5 =
        ⟨⟨none, true, false⟩, [Msg.wont 5], none⟩) ∧
    ((5 : Nat) ≠ ECHO → (5 : Nat) ≠ SUPPRESS_GO_AHEAD →
      handleWill ⟨none, true, false⟩ 5 =
        ⟨⟨none, true, false⟩, [Msg.dont 5], none⟩) ∧
    (∀ m ∈ (handleDo ⟨none, true, false⟩ 5).out, ∀ o,
      affirmedOption m = some o →
      o = NAWS ∨ o = TERMINAL_TYPE ∨ o = NEW_ENVIRON) ∧
    (∀ m ∈ (handleWill ⟨none, true, false⟩ 5).out, ∀ o,
      affirmedOption m = some o → o = ECHO ∨ o = SUPPRESS_GO_AHEAD) ∧
    (∀ m ∈ (handleDont ⟨none, true, false⟩ 5).out, affirmedOption m = none) ∧
    (∀ m ∈ (handleWont ⟨none, true, false⟩ 5).out, ∀ o,
      affirmedOption m = some o → o = ECHO) :=
  C3_unknown_options_negative ⟨none, true, false⟩ 5 (by decide)

/-! ### C4 -/

/-- C4 counterexample: the engine state consists of exactly the class fields
`_dimensions`, `_socket`, `_serverNawsOk`; receiving `WILL ECHO` (which per
the spec should record `theyWill[ECHO] = true`) leaves the state literally
unchanged, and so does the subsequent `WONT ECHO` — no flag recording that
the remote has ECHO enabled exists, so none can become false. -/
theorem C4_counterexample :
    (handleWill ⟨none, true, false⟩ ECHO).state = ⟨none, true, false⟩ ∧
    (handleWont (handleWill ⟨none, true, false⟩ ECHO).state ECHO).state =
      ⟨none, true, false⟩ ∧
    (handleWont ⟨none, true, false⟩ ECHO).out = [Msg.doCmd ECHO] := by
  decide

/-- C4 (amended): with the socket connected, `WONT ECHO` is answered with
`DO ECHO` and `WONT` of any other option with `DONT` of that option; the
engine keeps no per-option `theyWill` flags, so the state is unchanged in
both cases. -/
theorem C4_wont_policy (st : EngineState) (opt : Nat)
    (hconn : st.socketConnected = true) :
    handleWont st ECHO = ⟨st, [Msg.doCmd ECHO], none⟩ ∧
    (opt ≠ ECHO → handleWont st opt = ⟨st, [Msg.dont opt], none⟩) := by
  constructor
  · simp [handleWont, socketWrite, hconn]
  · intro h
    simp [handleWont, h, socketWrite, hconn]

/-- C4 witness: the amended `WONT` policy instantiated at a concrete
connected state with option 5. -/
theorem C4_wont_policy_witness :
    handleWont ⟨none, true, false⟩ ECHO =
      ⟨⟨none, true, false⟩, [Msg.doCmd ECHO], none⟩ ∧
    ((5 : Nat) ≠ ECHO → handleWont ⟨none, true, false⟩ 5 =
      ⟨⟨none, true, false⟩, [Msg.dont 5], none⟩) :=
  C4_wont_policy ⟨none, true, false⟩ 5 (by decide)

/-! ### C5 -/

/-- C5: with the socket connected, a completed subnegotiation for
TERMINAL-TYPE whose first payload byte is `SEND` is answered with one
subnegotiation holding `IS` followed by the UTF-8 bytes of `XTERM`; one for
NEW-ENVIRON whose first payload byte is `SEND` with one subnegotiation
holding only `IS`; any other option, an empty payload, or a different first
byte produces no message and no error, and never changes the state. -/
theorem C5_subnegotiation_replies (st : EngineState) (opt : Nat)
    (buffer : List Nat) (hconn : st.socketConnected = true) :
    (buffer.head? = some SEND →
      handleSubnegotiation st TERMINAL_TYPE buffer =
        ⟨st, [Msg.sub TERMINAL_TYPE (IS :: stringBytes XTERM)], none⟩) ∧
    (buffer.head? = some SEND →
      handleSubnegotiation st NEW_ENVIRON buffer =
        ⟨st, [Msg.sub NEW_ENVIRON [IS]], none⟩) ∧
    (stringBytes XTERM = [88, 84, 69, 82, 77]) ∧
    (opt ≠ TERMINAL_TYPE → opt ≠ NEW_ENVIRON →
      handleSubnegotiation st opt buffer = ⟨st, [], none⟩) ∧
    (buffer.head? ≠ some SEND →
      handleSubnegotiation st opt buffer = ⟨st, [], none⟩) := by
  refine ⟨?_, ?_, by decide, ?_, ?_⟩
  · intro hb
    simp [handleSubnegotiation, hb, sendTerminalType, writeSub, pieceBytes,
      socketWrite, hconn]
  · intro hb
    simp [handleSubnegotiation, hb, sendEnvironment, writeSub, pieceBytes,
      socketWrite, hconn, TERMINAL_TYPE, NEW_ENVIRON]
  · intro h1 h2
    simp [handleSubnegotiation, h1, h2]
  · intro hb
    by_cases h1 : opt = TERMINAL_TYPE
    · subst h1
      simp [handleSubnegotiation, hb]
    · by_cases h2 : opt = NEW_ENVIRON
      · subst h2
        simp [handleSubnegotiation, hb]
      · simp [handleSubnegotiation, h1, h2]

/-- C5 witness: instantiated at a concrete connected state, option 5 and the
empty payload. -/
theorem C5_subnegotiation_replies_witness :
    (([] : List Nat).head? = some SEND →
      handleSubnegotiation ⟨none, true, false⟩ TERMINAL_TYPE [] =
        ⟨⟨none, true, false⟩,
         [Msg.sub TERMINAL_TYPE (IS :: stringBytes XTERM)], none⟩) ∧
    (([] : List Nat).head? = some SEND →
      handleSubnegotiation ⟨none, true, false⟩ NEW_ENVIRON [] =
        ⟨⟨none, true, false⟩, [Msg.sub NEW_ENVIRON [IS]], none⟩) ∧
    (stringBytes XTERM = [88, 84, 69, 82, 77]) ∧
    ((5 : Nat) ≠ TERMINAL_TYPE → (5 : Nat) ≠ NEW_ENVIRON →
      handleSubnegotiation ⟨none, true, false⟩ 5 [] =
        ⟨⟨none, true, false⟩, [], none⟩) ∧
    (([] : List Nat).head? ≠ some SEND →
      handleSubnegotiation ⟨none, true, false⟩ 5 [] =
        ⟨⟨none, true, false⟩, [], none⟩) :=
  C5_subnegotiation_replies ⟨none, true, false⟩ 5 [] (by decide)

/-! ### C6 -/

/-- C6: `translateInput` maps the single character CR to CRLF and leaves any
other string unchanged (including strings merely containing CR); with the
socket connected, `handleInput` writes exactly the translated string. -/
theorem C6_input_translation (st : EngineState) (s : String)
    (hconn : st.socketConnected = true) (hs : s ≠ CR) :
    translateInput CR = CRLF ∧
    translateInput s = s ∧
    (handleInput st CR).out = [Msg.data CRLF] ∧
    (handleInput st s).out = [Msg.data s] := by
  refine ⟨by decide, ?_, ?_, ?_⟩
  · simp [translateInput, hs]
  · simp [handleInput, translateInput, socketWrite, hconn]
  · simp [handleInput, translateInput, hs, socketWrite, hconn]

/-- A sample input containing a carriage return among other characters. -/
def sampleInput : String := "a\rb"

/-- C6 witness: instantiated at a concrete connected state and the string
`a\rb`, which contains CR but is not the single character CR. -/
theorem C6_input_translation_witness :
    translateInput CR = CRLF ∧
    translateInput sampleInput = sampleInput ∧
    (handleInput ⟨none, true, false⟩ CR).out = [Msg.data CRLF] ∧
    (handleInput ⟨none, true, false⟩ sampleInput).out =
      [Msg.data sampleInput] :=
  C6_input_translation ⟨none, true, false⟩ sampleInput (by decide) (by decide)

/-! ### C7 -/

/-- C7: with the socket connected, NAWS accepted and an in-range size,
reporting that size twice in a row sends two identical NAWS subnegotiation
blocks — the second report is not suppressed by any stored state. -/
theorem C7_naws_resend_not_suppressed (st : EngineState)
    (d : TerminalDimensions) (hconn : st.socketConnected = true)
    (hn : st.serverNawsOk = true) (hr : inInt16Range d) :
    (setDimensions st d).out =
      [Msg.sub NAWS (int16pair d.columns ++ int16pair d.rows)] ∧
    (setDimensions (setDimensions st d).state d).out =
      (setDimensions st d).out := by
  obtain ⟨dims, conn, naws⟩ := st
  simp only at hconn hn
  subst hconn
  subst hn
  have hsw := sendWindowSize_eq ⟨some d, true, true⟩ d rfl rfl rfl hr
  constructor
  · simp [setDimensions, setDimensionsValue, hsw]
  · simp [setDimensions, setDimensionsValue, hsw]

/-- C7 witness: size 80×24 reported twice from a connected state with NAWS
accepted. -/
theorem C7_naws_resend_not_suppressed_witness :
    (setDimensions ⟨none, true, true⟩ ⟨80, 24⟩).out =
      [Msg.sub NAWS (int16pair 80 ++ int16pair 24)] ∧
    (setDimensions (setDimensions ⟨none, true, true⟩ ⟨80, 24⟩).state
        ⟨80, 24⟩).out =
      (setDimensions ⟨none, true, true⟩ ⟨80, 24⟩).out :=
  C7_naws_resend_not_suppressed ⟨none, true, true⟩ ⟨80, 24⟩ (by decide)
    (by decide) (by decide)

/-! ### C8 -/

/-- C8: while NAWS is not accepted, each reported size is stored (replacing
the previous one) and nothing is emitted; when the remote then accepts NAWS
via `DO NAWS`, the most recently stored size is the one sent in the
resulting NAWS subnegotiation (given it is in range). -/
theorem C8_store_silently_then_send (st : EngineState)
    (d1 d2 : TerminalDimensions) (hconn : st.socketConnected = true)
    (hn : st.serverNawsOk = false) (hr : inInt16Range d2) :
    (setDimensions st d1).out = [] ∧
    (setDimensions st d1).err = none ∧
    (setDimensions st d1).state.dimensions = some d1 ∧
    (setDimensions (setDimensions st d1).state d2).out = [] ∧
    (setDimensions (setDimensions st d1).state d2).state.dimensions =
      some d2 ∧
    (handleDo (setDimensions (setDimensions st d1).state d2).state NAWS).out =
      [Msg.will NAWS,
       Msg.sub NAWS (int16pair d2.columns ++ int16pair d2.rows)] := by
  obtain ⟨dims, conn, naws⟩ := st
  simp only at hconn hn
  subst hconn
  subst hn
  have hsw := sendWindowSize_eq ⟨some d2, true, true⟩ d2 rfl rfl rfl hr
  refine ⟨?_, ?_, rfl, ?_, rfl, ?_⟩
  · simp [setDimensions, setDimensionsValue, sendWindowSize]
  · simp [setDimensions, setDimensionsValue, sendWindowSize]
  · simp [setDimensions, setDimensionsValue, sendWindowSize]
  · simp [setDimensions, setDimensionsValue, handleDo, setServerNawsOk,
      socketWrite, hsw]

/-- C8 witness: sizes 10×10 then 80×24 reported before NAWS is accepted,
followed by `DO NAWS`. -/
theorem C8_store_silently_then_send_witness :
    (setDimensions ⟨none, true, false⟩ ⟨10, 10⟩).out = [] ∧
    (setDimensions ⟨none, true, false⟩ ⟨10, 10⟩).err = none ∧
    (setDimensions ⟨none, true, false⟩ ⟨10, 10⟩).state.dimensions =
      some ⟨10, 10⟩ ∧
    (setDimensions (setDimensions ⟨none, true, false⟩ ⟨10, 10⟩).state
        ⟨80, 24⟩).out = [] ∧
    (setDimensions (setDimensions ⟨none, true, false⟩ ⟨10, 10⟩).state
        ⟨80, 24⟩).state.dimensions = some ⟨80, 24⟩ ∧
    (handleDo (setDimensions
        (setDimensions ⟨none, true, false⟩ ⟨10, 10⟩).state
        ⟨80, 24⟩).state NAWS).out =
      [Msg.will NAWS, Msg.sub NAWS (int16pair 80 ++ int16pair 24)] :=
  C8_store_silently_then_send ⟨none, true, false⟩ ⟨10, 10⟩ ⟨80, 24⟩
    (by decide) (by decide) (by decide)

/-! ### C9 -/

/-- C9: before the connection has been opened (no socket yet), submitting
input raises `Error('Terminal not ready')` synchronously: nothing is written
and the state is unchanged, rather than the data being silently dropped. -/
theorem C9_write_before_open (st : EngineState) (s : String)
    (h : st.socketConnected = false) :
    handleInput st s = ⟨st, [], some (JsError.error notReadyText)⟩ := by
  simp [handleInput, socketWrite, h, terminalNotReady]

/-- C9 witness: submitting a string to the freshly constructed terminal. -/
theorem C9_write_before_open_witness :
    handleInput initialState sampleInput =
      ⟨initialState, [], some (JsError.error notReadyText)⟩ :=
  C9_write_before_open initialState sampleInput (by decide)

/-! ### C10 -/

/-- C10: with NAWS accepted and the socket connected, `setDimensions` with a
column or row count outside the signed 16-bit range raises a `RangeError`
and sends no NAWS subnegotiation, but the out-of-range size has already
replaced the stored dimensions when the error is raised. -/
theorem C10_out_of_range_size (st : EngineState) (c r : Int)
    (hconn : st.socketConnected = true) (hn : st.serverNawsOk = true)
    (hout : c < -32768 ∨ 32767 < c ∨ r < -32768 ∨ 32767 < r) :
    (setDimensions st ⟨c, r⟩).err = some JsError.rangeError ∧
    (setDimensions st ⟨c, r⟩).out = [] ∧
    (setDimensions st ⟨c, r⟩).state.dimensions = some ⟨c, r⟩ := by
  obtain ⟨dims, conn, naws⟩ := st
  simp only at hconn hn
  subst hconn
  subst hn
  refine ⟨?_, ?_, rfl⟩
  · by_cases hc : c < -32768 ∨ 32767 < c
    · simp [setDimensions, setDimensionsValue, sendWindowSize,
        writeInt16BE, hc]
    · have hr : r < -32768 ∨ 32767 < r := by omega
      simp [setDimensions, setDimensionsValue, sendWindowSize,
        writeInt16BE, hc, hr]
  · by_cases hc : c < -32768 ∨ 32767 < c
    · simp [setDimensions, setDimensionsValue, sendWindowSize,
        writeInt16BE, hc]
    · have hr : r < -32768 ∨ 32767 < r := by omega
      simp [setDimensions, setDimensionsValue, sendWindowSize,
        writeInt16BE, hc, hr]

/-- C10 witness: columns 40000 exceeds 32767; the stored size is replaced,
the NAWS encoder raises `RangeError`, nothing is sent. -/
theorem C10_out_of_range_size_witness :
    (setDimensions ⟨none, true, true⟩ ⟨40000, 24⟩).err =
      some JsError.rangeError ∧
    (setDimensions ⟨none, true, true⟩ ⟨40000, 24⟩).out = [] ∧
    (setDimensions ⟨none, true, true⟩ ⟨40000, 24⟩).state.dimensions =
      some ⟨40000, 24⟩ :=
  C10_out_of_range_size ⟨none, true, true⟩ 40000 24 (by decide) (by decide)
    (by decide)

end TelnetPty
